import Mathlib

/-!
Shallow embedding of the `dstest` Go package (a test harness that starts a
Cloud Datastore emulator process, extracts the announced endpoint from its
log output, health-checks it and tears everything down at test end).

The repository contains two historical variants of the single entry point
`Emulator`:

* the legacy variant (`emulator.go`): `io.Pipe`-based output capture, a
  kill-style cleanup, `t.Errorf` for teardown failures, no check for an
  empty announcement;
* the graceful variant (`unnamed/part_000`): `StdoutPipe`-based capture,
  a graceful `POST /shutdown` cleanup guarded by `stopTimeout`, `t.Logf`
  for teardown failures, and an explicit empty-announcement check.

Both are embedded below (`emulatorL` for the legacy variant, `emulatorG`
for the graceful one).  Test-framework effects (`t.Log`, `t.Errorf`,
`t.Fatalf`, `t.Setenv`, process spawn, client construction) are recorded
as an event trace; `t.Fatalf` aborts the run.  External nondeterminism
(whether `freeport`/`StdoutPipe`/`shellquote`/`cmd.Start` fail, the
process output lines, which arm of the startup `select` fires, the
health-probe outcome, the client-construction outcome) is resolved by an
explicit world record.  The scanner goroutine and the buffered
announcement channel are modelled by an explicit small-step channel
discipline (`scanLines`).
-/

namespace Dstest

/-- Duration in nanoseconds, mirroring Go's `time.Duration` (an int64). -/
abbrev Duration := Int

/-- One second in nanoseconds (Go's `time.Second`). -/
def second : Duration := 1000000000

/-- Deadline-only model of a Go `context.Context`: all the embedded code ever
does with a context is derive deadlines from it. -/
structure Ctx where
  deadline : Option Int
deriving DecidableEq

/-- Model of `context.WithTimeout(c, d)` taken at time `now`: the child
deadline is `now + d`, capped by the parent's earlier deadline if any. -/
def Ctx.withTimeout (c : Ctx) (now : Int) (d : Duration) : Ctx :=
  ⟨some (match c.deadline with
    | none => now + d
    | some p => min p (now + d))⟩

/-- Environment-variable pair announced by the emulator
(source: `type envVar struct{ name, value string }`). -/
structure EnvVar where
  name : String
  value : String
deriving DecidableEq

/-- Strips the literal pattern `p` from the front of `s`, returning the
remainder (helper for the anchored regular expression). -/
def stripPfx : List Char → List Char → Option (List Char)
  | [], s => some s
  | _ :: _, [] => none
  | p :: ps, c :: cs => if c = p then stripPfx ps cs else none

/-- Splits off the longest run of leading space characters, returning the
count and the remainder (the greedy one-or-more-spaces regexp term). -/
def takeSpaces : List Char → Nat × List Char
  | [] => (0, [])
  | c :: cs =>
    if c = ' ' then ((takeSpaces cs).1 + 1, (takeSpaces cs).2)
    else (0, c :: cs)

/-- Embedding of
`envRegexp = regexp.MustCompile` of the anchored pattern
matching a literal open bracket, `datastore`, close bracket, one or more
spaces, the literal `export DATASTORE_EMULATOR_HOST=`, and then a
non-empty run of non-newline characters captured as the value (the first
capture group is the literal variable name).  `FindStringSubmatch`
against an anchored pattern either fails or yields the two groups. -/
def envRegexpMatch (line : String) : Option EnvVar :=
  match stripPfx "[datastore]".data line.data with
  | none => none
  | some r1 =>
    let sp := takeSpaces r1
    if sp.1 = 0 then none
    else
      match stripPfx "export DATASTORE_EMULATOR_HOST=".data sp.2 with
      | none => none
      | some rest =>
        if rest = [] then none
        else if rest.any (fun c => c = '\n') then none
        else some ⟨"DATASTORE_EMULATOR_HOST", String.mk rest⟩

/-- First announcement in stream order, if any. -/
def firstMatch (lines : List String) : Option EnvVar :=
  (lines.filterMap envRegexpMatch).head?

/-- Number of lines matching the announcement pattern. -/
def countMatches (lines : List String) : Nat :=
  (lines.filterMap envRegexpMatch).length

/-- Outcome of running the scanner goroutine over the whole output stream
against the one-slot announcement channel. -/
structure ScanResult where
  /-- Value taken by the single waiting receiver, if it took one. -/
  received : Option EnvVar
  /-- Value left sitting in the one-slot channel buffer. -/
  buffered : Option EnvVar
  /-- The scanner got stuck forever in a channel send. -/
  blocked : Bool
  /-- The scanner reached `close(envCh)` after draining the stream. -/
  closed : Bool
  /-- Lines logged via `t.Log` before any blocking send. -/
  logs : List String
deriving DecidableEq

/-- Small-step model of the scanner goroutine
(`for s.Scan() { line; t.Log; if match then envCh <- v }; close(envCh)`)
run against a channel of capacity one.  `recvW` records whether the
startup coordinator is still waiting to receive one value; a send
delivers to the waiting receiver first, else fills the empty buffer,
else blocks the goroutine forever (Go semantics of a buffered send with
no receiver). -/
def scanLines : List String → Bool → Option EnvVar → Option EnvVar → ScanResult
  | [], _, recvd, buf => ⟨recvd, buf, false, true, []⟩
  | l :: rest, recvW, recvd, buf =>
    let logLine := "dstest: " ++ l
    match envRegexpMatch l with
    | none =>
      let r := scanLines rest recvW recvd buf
      { r with logs := logLine :: r.logs }
    | some v =>
      if recvW then
        let r := scanLines rest false (some v) buf
        { r with logs := logLine :: r.logs }
      else
        match buf with
        | none =>
          let r := scanLines rest recvW recvd (some v)
          { r with logs := logLine :: r.logs }
        | some _ => ⟨recvd, buf, true, false, [logLine]⟩

/-- Runs the scanner from the initial state: empty buffer, no value
received yet; `recvW` says whether anybody ever receives. -/
def scanRun (lines : List String) (recvW : Bool) : ScanResult :=
  scanLines lines recvW none none

/-- Mode of the datastore emulator (Go: `type Mode int`). -/
abbrev Mode := Int

/-- First enumerated mode (Go: `FirestoreMode Mode = iota`). -/
def FirestoreMode : Mode := 0

/-- Second enumerated mode (Go: `LegacyMode`). -/
def LegacyMode : Mode := 1

/-- Effective configuration of the graceful variant
(Go: `type options struct`). -/
structure Options where
  mode : Mode
  startTimeout : Duration
  stopTimeout : Duration
deriving DecidableEq

/-- Effective configuration of the legacy variant, which has no
stop timeout. -/
structure OptionsL where
  mode : Mode
  startTimeout : Duration
deriving DecidableEq

/-- The closed set of `Option` implementations of the graceful variant:
`Mode`, `StartTimeout`, `StopTimeout`. -/
inductive Opt
  | mode (m : Mode)
  | startTimeout (d : Duration)
  | stopTimeout (d : Duration)
deriving DecidableEq

/-- The closed set of `Option` implementations of the legacy variant:
`Mode` and `StartTimeout` only. -/
inductive OptL
  | mode (m : Mode)
  | startTimeout (d : Duration)
deriving DecidableEq

/-- The `apply` methods of the graceful variant's option types, each of
which overwrites its own field of the configuration. -/
def Opt.apply : Opt → Options → Options
  | .mode m, o => { o with mode := m }
  | .startTimeout d, o => { o with startTimeout := d }
  | .stopTimeout d, o => { o with stopTimeout := d }

/-- The `apply` methods of the legacy variant's option types. -/
def OptL.apply : OptL → OptionsL → OptionsL
  | .mode m, o => { o with mode := m }
  | .startTimeout d, o => { o with startTimeout := d }

/-- Defaults of the graceful variant: Firestore mode, 20-second start
timeout, 20-second stop timeout. -/
def defaultOptions : Options :=
  ⟨FirestoreMode, 20 * second, 20 * second⟩

/-- Defaults of the legacy variant: Firestore mode, 20-second start
timeout. -/
def defaultOptionsL : OptionsL :=
  ⟨FirestoreMode, 20 * second⟩

/-- The `for _, opt := range opts { opt.apply(&o) }` loop. -/
def applyOpts (opts : List Opt) (o : Options) : Options :=
  opts.foldl (fun acc op => op.apply acc) o

/-- The option-application loop of the legacy variant. -/
def applyOptsL (opts : List OptL) (o : OptionsL) : OptionsL :=
  opts.foldl (fun acc op => op.apply acc) o

/-- Test-framework effects of the foreground control flow and the cleanups.
`log` is `t.Log`/`t.Logf` (pure diagnostic), `err` is `t.Errorf` (marks
the test failed, keeps going), `fatal` is `t.Fatal`/`t.Fatalf` (marks the
test failed and aborts).  `spawn` records that `cmd.Start` created the
child process, `kill` that `cmd.Process.Kill` was invoked, `wgWait` that
the cleanup blocked on the process-wait/output-scanner join. -/
inductive Event
  | log (msg : String)
  | err (msg : String)
  | fatal (msg : String)
  | spawn (args : List String)
  | setenv (name value : String)
  | clientNew
  | kill
  | wgWait
deriving DecidableEq

/-- The event marks the test failed without aborting (`t.Errorf`). -/
def Event.isErr : Event → Bool
  | .err _ => true
  | _ => false

/-- The event marks the test failed and aborts (`t.Fatal`/`t.Fatalf`). -/
def Event.isFatal : Event → Bool
  | .fatal _ => true
  | _ => false

/-- A trace flips the test to failed (Go: `t.Errorf` or `t.Fatalf` ran). -/
def failsTest (tr : List Event) : Bool :=
  tr.any (fun e => e.isErr || e.isFatal)

/-- Result of one `Emulator` invocation: the foreground event trace,
whether a client handle was returned, and which context (deadline scope)
was live at the startup `select` and at the health-check request. -/
structure RunResult where
  trace : List Event
  client : Bool
  selectCtx : Option Ctx
  healthCtx : Option Ctx
deriving DecidableEq

/-- Fatal-failure message formats of both variants. -/
def startTimeoutMsg (e : String) : String :=
  "dstest: Cloud Datastore emulator didn’t start up: " ++ e

/-- Message of the graceful variant's empty-announcement `t.Fatal`. -/
def noAnnounceMsg : String :=
  "dstest: Cloud Datastore emulator didn’t start up"

/-- Health-check status-line failure message of the graceful variant. -/
def healthStatusMsgG (status : String) : String :=
  "dstest: health check failed with HTTP status " ++ status

/-- Health-check status-line failure message of the legacy variant (note
the historical typo: checked). -/
def healthStatusMsgL (status : String) : String :=
  "dstest: health checked failed with HTTP status " ++ status

/-- Health-check request/transport failure message (both variants). -/
def healthErrMsg (e : String) : String :=
  "dstest: health check failed: " ++ e

/-- Waiting-for-health log line (both variants). -/
def runningMsg (v : String) : String :=
  "dstest: Cloud Datastore emulator running at " ++ v ++ "; waiting for health check"

/-- Healthy log line (both variants). -/
def healthyMsg (v : String) : String :=
  "dstest: Cloud Datastore emulator running at " ++ v ++ " is healthy"

/-- External nondeterminism of one graceful-variant run, resolved into an
oracle record: error results of the fallible external steps, the output
lines the child produces, which arm of the startup `select` fires first,
and the final health-probe outcome. -/
structure WorldG where
  freeportErr : Option String
  port : Nat
  dataDir : String
  pipeErr : Option String
  quoteErr : Option String
  cmdLine : String
  startErr : Option String
  outputLines : List String
  deadlineFirst : Bool
  ctxErr : String
  healthReqErr : Option String
  healthRespErr : Option String
  healthStatus : Nat
  healthStatusText : String
  clientErr : Option String
deriving DecidableEq

/-- External nondeterminism of one legacy-variant run (no freeport, no
shell quoting, `io.Pipe` cannot fail). -/
structure WorldL where
  dataDir : String
  startErr : Option String
  outputLines : List String
  deadlineFirst : Bool
  ctxErr : String
  healthReqErr : Option String
  healthRespErr : Option String
  healthStatus : Nat
  healthStatusText : String
  clientErr : Option String
deriving DecidableEq

/-- Embedding of the graceful variant of `Emulator` (file
`unnamed/part_000`): defaults and option application, the
`startTimeout`-derived context, freeport, argument construction and the
mode switch, spawn, the startup `select` racing the announcement channel
against `startCtx.Done()`, the empty-announcement check, the health
check issued under the same `startCtx`, `t.Setenv` and client
construction.  Cleanup registration bodies are modelled separately
(`shutdownCleanup`, `closeCleanupG`) since they run at test end. -/
def emulatorG (ctx : Ctx) (now : Int) (opts : List Opt) (w : WorldG) : RunResult :=
  let o := applyOpts opts defaultOptions
  let startCtx := ctx.withTimeout now o.startTimeout
  match w.freeportErr with
  | some e => ⟨[.fatal e], false, none, none⟩
  | none =>
    let args0 := ["beta", "emulators", "datastore", "start",
      "--data-dir=" ++ w.dataDir,
      "--host-port=localhost:" ++ toString w.port,
      "--no-store-on-disk"]
    if o.mode = FirestoreMode ∨ o.mode = LegacyMode then
      let args := if o.mode = FirestoreMode
        then args0 ++ ["--use-firestore-in-datastore-mode"] else args0
      match w.pipeErr with
      | some e => ⟨[.fatal e], false, none, none⟩
      | none =>
        match w.quoteErr with
        | some e =>
          ⟨[.log "dstest: starting Cloud Datastore emulator", .fatal e],
            false, none, none⟩
        | none =>
          match w.startErr with
          | some e =>
            ⟨[.log "dstest: starting Cloud Datastore emulator",
              .log ("dstest: " ++ w.cmdLine),
              .fatal ("dstest: couldn’t start Cloud Datastore emulator: " ++ e)],
              false, none, none⟩
          | none =>
            let pre := [Event.log "dstest: starting Cloud Datastore emulator",
              Event.log ("dstest: " ++ w.cmdLine),
              Event.spawn args,
              Event.log "dstest: Cloud Datastore emulator started; waiting for startup"]
            if w.deadlineFirst then
              ⟨pre ++ [.fatal (startTimeoutMsg w.ctxErr)], false, some startCtx, none⟩
            else
              let env := ((scanRun w.outputLines true).received).getD ⟨"", ""⟩
              if env.name = "" ∨ env.value = "" then
                ⟨pre ++ [.fatal noAnnounceMsg], false, some startCtx, none⟩
              else
                let pre := pre ++ [Event.log (runningMsg env.value)]
                match w.healthReqErr with
                | some e =>
                  ⟨pre ++ [.fatal (healthErrMsg e)], false, some startCtx, some startCtx⟩
                | none =>
                  match w.healthRespErr with
                  | some e =>
                    ⟨pre ++ [.fatal (healthErrMsg e)], false, some startCtx, some startCtx⟩
                  | none =>
                    if w.healthStatus ≠ 200 then
                      ⟨pre ++ [.fatal (healthStatusMsgG w.healthStatusText)],
                        false, some startCtx, some startCtx⟩
                    else
                      let pre := pre ++ [Event.log (healthyMsg env.value),
                        Event.setenv env.name env.value]
                      match w.clientErr with
                      | some e =>
                        ⟨pre ++ [.fatal ("dstest: error creating Cloud Datastore client: " ++ e)],
                          false, some startCtx, some startCtx⟩
                      | none =>
                        ⟨pre ++ [Event.clientNew], true, some startCtx, some startCtx⟩
    else
      ⟨[.fatal ("invalid mode " ++ toString o.mode)], false, none, none⟩

/-- Embedding of the legacy variant of `Emulator` (file `emulator.go`):
same structure, but no freeport/host-port, no shell-quote log, no
empty-announcement check after the `select`, and the typo in the
health-status message.  Its kill cleanup is `killCleanup` below. -/
def emulatorL (ctx : Ctx) (now : Int) (opts : List OptL) (w : WorldL) : RunResult :=
  let o := applyOptsL opts defaultOptionsL
  let startCtx := ctx.withTimeout now o.startTimeout
  let args0 := ["beta", "emulators", "datastore", "start",
    "--data-dir=" ++ w.dataDir,
    "--no-store-on-disk"]
  if o.mode = FirestoreMode ∨ o.mode = LegacyMode then
    let args := if o.mode = FirestoreMode
      then args0 ++ ["--use-firestore-in-datastore-mode"] else args0
    match w.startErr with
    | some e =>
      ⟨[.log "dstest: starting Cloud Datastore emulator",
        .fatal ("dstest: couldn’t start Cloud Datastore emulator: " ++ e)],
        false, none, none⟩
    | none =>
      let pre := [Event.log "dstest: starting Cloud Datastore emulator",
        Event.spawn args,
        Event.log "dstest: Cloud Datastore emulator started; waiting for startup"]
      if w.deadlineFirst then
        ⟨pre ++ [.fatal (startTimeoutMsg w.ctxErr)], false, some startCtx, none⟩
      else
        let env := ((scanRun w.outputLines true).received).getD ⟨"", ""⟩
        let pre := pre ++ [Event.log (runningMsg env.value)]
        match w.healthReqErr with
        | some e =>
          ⟨pre ++ [.fatal (healthErrMsg e)], false, some startCtx, some startCtx⟩
        | none =>
          match w.healthRespErr with
          | some e =>
            ⟨pre ++ [.fatal (healthErrMsg e)], false, some startCtx, some startCtx⟩
          | none =>
            if w.healthStatus ≠ 200 then
              ⟨pre ++ [.fatal (healthStatusMsgL w.healthStatusText)],
                false, some startCtx, some startCtx⟩
            else
              let pre := pre ++ [Event.log (healthyMsg env.value),
                Event.setenv env.name env.value]
              match w.clientErr with
              | some e =>
                ⟨pre ++ [.fatal ("dstest: error creating Cloud Datastore client: " ++ e)],
                  false, some startCtx, some startCtx⟩
              | none =>
                ⟨pre ++ [Event.clientNew], true, some startCtx, some startCtx⟩
  else
    ⟨[.fatal ("invalid mode " ++ toString o.mode)], false, none, none⟩

/-- Embedding of the legacy variant's cleanup (emulator.go lines 101-110):
log, `cmd.Process.Kill` with its error reported via `t.Errorf`,
`pw.Close` with its error reported via `t.Errorf`, final log. -/
def killCleanup (killErr pwCloseErr : Option String) : List Event :=
  [Event.log "dstest: killing Cloud Datastore emulator", Event.kill] ++
  (match killErr with
    | some e => [Event.err ("dstest: killing Cloud Datastore emulator failed: " ++ e)]
    | none => []) ++
  (match pwCloseErr with
    | some e => [Event.err ("dstest: error closing output writer: " ++ e)]
    | none => []) ++
  [Event.log "dstest: Cloud Datastore emulator killed"]

/-- Embedding of the legacy variant's client-close cleanup (emulator.go
lines 142-147): a close error is reported via `t.Errorf`. -/
def closeCleanupL (closeErr : Option String) : List Event :=
  [Event.log "dstest: closing datastore client"] ++
  (match closeErr with
    | some e => [Event.err ("dstest: couldn’t close datastore client: " ++ e)]
    | none => [])

/-- Embedding of the graceful variant's shutdown cleanup (part_000 lines
149-170): within a `stopTimeout`-derived context, `POST /shutdown`; on
request-construction error, transport error or non-200 status the
failure is logged via `t.Logf` and the cleanup returns at once; only on
a 200 response does it block on `wg.Wait()` for the process-wait and
output-scanner join.  The cleanup never kills the process itself. -/
def shutdownCleanup (reqErr respErr : Option String) (status : Nat) (statusText : String) : List Event :=
  [Event.log "dstest: asking Cloud Datastore emulator to shut down"] ++
  match reqErr with
  | some e => [Event.log ("dstest: stopping Cloud Datastore emulator failed: " ++ e)]
  | none =>
    match respErr with
    | some e => [Event.log ("dstest: stopping Cloud Datastore emulator failed: " ++ e)]
    | none =>
      if status ≠ 200 then
        [Event.log ("dstest: stopping Cloud Datastore emulator failed: " ++ statusText)]
      else
        [Event.log "dstest: waiting for Cloud Datastore emulator to stop", Event.wgWait]

/-- Embedding of the graceful variant's client-close cleanup (part_000
lines 177-182): a close error is only logged via `t.Logf`. -/
def closeCleanupG (closeErr : Option String) : List Event :=
  [Event.log "dstest: closing datastore client"] ++
  (match closeErr with
    | some e => [Event.log ("dstest: couldn’t close datastore client: " ++ e)]
    | none => [])

/-- Event `a` occurs strictly before event `b` somewhere in the trace. -/
def beforeIn (tr : List Event) (a b : Event) : Prop :=
  ∃ l₁ l₂ l₃, tr = l₁ ++ a :: (l₂ ++ b :: l₃)

/-- Last element of a list, or the default when the list is empty
(spec-side notion used to state that the last option of a kind wins). -/
def lastD {α : Type} : List α → α → α
  | [], d => d
  | a :: t, _ => lastD t a

/-- Projects the mode carried by a mode option. -/
def modeOf : Opt → Option Mode
  | .mode m => some m
  | _ => none

/-- Projects the duration carried by a start-timeout option. -/
def startOf : Opt → Option Duration
  | .startTimeout d => some d
  | _ => none

/-- Projects the duration carried by a stop-timeout option. -/
def stopOf : Opt → Option Duration
  | .stopTimeout d => some d
  | _ => none

/-- Concrete announcement line used in concrete runs. -/
def annLine : String := "[datastore] export DATASTORE_EMULATOR_HOST=localhost:8081"

/-- Second concrete announcement line with a different endpoint. -/
def annLine2 : String := "[datastore] export DATASTORE_EMULATOR_HOST=localhost:9999"

/-- Concrete graceful-variant world of a fully successful run. -/
def wOkG : WorldG :=
  ⟨none, 8081, "tmp", none, none, "gcloud beta emulators datastore start", none,
    [annLine], false, "context deadline exceeded", none, none, 200, "200 OK", none⟩

/-- Concrete graceful-variant world whose health probe ends in 503. -/
def wBadG : WorldG :=
  ⟨none, 8081, "tmp", none, none, "gcloud beta emulators datastore start", none,
    [annLine], false, "context deadline exceeded", none, none, 503,
    "503 Service Unavailable", none⟩

/-- Concrete graceful-variant world whose output stream closes with zero
matching lines while the channel still wins the select. -/
def wEmptyG : WorldG :=
  ⟨none, 8081, "tmp", none, none, "gcloud beta emulators datastore start", none,
    [], false, "context deadline exceeded", none, none, 200, "200 OK", none⟩

/-- Concrete legacy-variant world of a fully successful run. -/
def wOkL : WorldL :=
  ⟨"tmp", none, [annLine], false, "context deadline exceeded", none, none, 200, "200 OK", none⟩

/-- Concrete legacy-variant world whose health probe ends in 503. -/
def wBadL : WorldL :=
  ⟨"tmp", none, [annLine], false, "context deadline exceeded", none, none, 503,
    "503 Service Unavailable", none⟩

/-- Concrete legacy-variant world whose output stream closes with zero
matching lines before the deadline; the health transport then fails on
the empty endpoint. -/
def wC2L : WorldL :=
  ⟨"tmp", none, [], false, "context deadline exceeded", none,
    some "no Host in request URL", 0, "", none⟩

/-- Helper: a non-matching head line leaves the match count unchanged. -/
theorem countMatches_cons_none {l : String} (h : envRegexpMatch l = none) (rest : List String) :
    countMatches (l :: rest) = countMatches rest := by
  simp [countMatches, List.filterMap_cons, h]

/-- Helper: a matching head line adds one to the match count. -/
theorem countMatches_cons_some {l : String} {v : EnvVar} (h : envRegexpMatch l = some v)
    (rest : List String) : countMatches (l :: rest) = countMatches rest + 1 := by
  simp [countMatches, List.filterMap_cons, h, Nat.add_comm]

/-- Channel-capacity invariant of the scanner: it avoids blocking exactly
when the number of matching lines fits into the remaining receive plus
the free buffer slot. -/
theorem scanLines_blocked_iff :
    ∀ (lines : List String) (recvW : Bool) (recvd buf : Option EnvVar),
    ((scanLines lines recvW recvd buf).blocked = false ↔
      countMatches lines ≤ (if recvW then 1 else 0) + (if buf.isNone then 1 else 0))
  | [], recvW, recvd, buf => by simp [scanLines, countMatches]
  | l :: rest, recvW, recvd, buf => by
    cases h : envRegexpMatch l with
    | none =>
      rw [countMatches_cons_none h]
      simp only [scanLines, h]
      exact scanLines_blocked_iff rest recvW recvd buf
    | some v =>
      rw [countMatches_cons_some h]
      cases recvW with
      | true =>
        have ih := scanLines_blocked_iff rest false (some v) buf
        simp [scanLines, h, ih]
        cases buf <;> simp
      | false =>
        cases buf with
        | none =>
          have ih := scanLines_blocked_iff rest false recvd (some v)
          simp [scanLines, h, ih]
        | some b =>
          simp [scanLines, h]

/-- The scanner reaches `close(envCh)` exactly when it did not block. -/
theorem scanLines_closed_eq :
    ∀ (lines : List String) (recvW : Bool) (recvd buf : Option EnvVar),
    (scanLines lines recvW recvd buf).closed = !(scanLines lines recvW recvd buf).blocked
  | [], _, recvd, buf => by simp [scanLines]
  | l :: rest, recvW, recvd, buf => by
    cases h : envRegexpMatch l with
    | none =>
      simp only [scanLines, h]
      exact scanLines_closed_eq rest recvW recvd buf
    | some v =>
      cases recvW with
      | true =>
        simp only [scanLines, h, if_true]
        exact scanLines_closed_eq rest false (some v) buf
      | false =>
        cases buf with
        | none =>
          simp only [scanLines, h]
          exact scanLines_closed_eq rest false recvd (some v)
        | some b => simp [scanLines, h]

/-- Once the receiver is gone (or already served), the received value
never changes. -/
theorem scanLines_received_no_recv :
    ∀ (lines : List String) (recvd buf : Option EnvVar),
    (scanLines lines false recvd buf).received = recvd
  | [], recvd, buf => rfl
  | l :: rest, recvd, buf => by
    cases h : envRegexpMatch l with
    | none =>
      simp only [scanLines, h]
      exact scanLines_received_no_recv rest recvd buf
    | some v =>
      cases buf with
      | none =>
        simp only [scanLines, h]
        exact scanLines_received_no_recv rest recvd (some v)
      | some b => simp [scanLines, h]

/-- The waiting receiver obtains exactly the first matching line's pair,
regardless of how many further lines match. -/
theorem scanLines_received_first :
    ∀ (lines : List String) (buf : Option EnvVar),
    (scanLines lines true none buf).received = (lines.filterMap envRegexpMatch).head?
  | [], buf => rfl
  | l :: rest, buf => by
    cases h : envRegexpMatch l with
    | none =>
      simp only [scanLines, h, List.filterMap_cons]
      exact scanLines_received_first rest buf
    | some v =>
      simp only [scanLines, h, if_true, List.filterMap_cons]
      simp [scanLines_received_no_recv rest (some v) buf]

/-- The startup coordinator's received announcement is the first match. -/
theorem scanRun_received (lines : List String) :
    (scanRun lines true).received = firstMatch lines :=
  scanLines_received_first lines none

/-- Any accepted announcement carries the fixed variable name and a
non-empty value. -/
theorem envRegexpMatch_fields {l : String} {ev : EnvVar} (h : envRegexpMatch l = some ev) :
    ev.name = "DATASTORE_EMULATOR_HOST" ∧ ev.value ≠ "" := by
  unfold envRegexpMatch at h
  repeat' split at h
  all_goals simp_all
  obtain ⟨hsp, h⟩ := h
  split at h
  next => simp_all
  next rest hstrip =>
    split at h
    next => simp_all
    next hne =>
      split at h
      next => simp_all
      next hnl =>
        injection h with h
        subst h
        refine ⟨rfl, ?_⟩
        intro hv
        have hdv := congrArg String.data hv
        have hed : ("" : String).data = [] := rfl
        rw [hed] at hdv
        simp at hdv
        exact hne hdv



/-- The first match, when it exists, carries the fixed name and a
non-empty value. -/
theorem firstMatch_fields {lines : List String} {ev : EnvVar} (h : firstMatch lines = some ev) :
    ev.name = "DATASTORE_EMULATOR_HOST" ∧ ev.value ≠ "" := by
  unfold firstMatch at h
  have hmem : ev ∈ lines.filterMap envRegexpMatch := by
    cases hl : lines.filterMap envRegexpMatch with
    | nil => simp [hl] at h
    | cons a t =>
      rw [hl] at h
      simp at h
      simp [h]
  obtain ⟨l, _, hl⟩ := List.mem_filterMap.mp hmem
  exact envRegexpMatch_fields hl

/-- Branch equation: a fully successful graceful-variant run. -/
theorem emulatorG_success (ctx : Ctx) (now : Int) (opts : List Opt) (w : WorldG)
    (nm v : String)
    (hf : w.freeportErr = none)
    (hm : (applyOpts opts defaultOptions).mode = FirestoreMode ∨
      (applyOpts opts defaultOptions).mode = LegacyMode)
    (hp : w.pipeErr = none) (hq : w.quoteErr = none) (hs : w.startErr = none)
    (hd : w.deadlineFirst = false)
    (hann : firstMatch w.outputLines = some ⟨nm, v⟩)
    (hnm : nm ≠ "") (hv : v ≠ "")
    (hreq : w.healthReqErr = none) (hresp : w.healthRespErr = none)
    (hst : w.healthStatus = 200) (hcl : w.clientErr = none) :
    emulatorG ctx now opts w =
      ⟨[Event.log "dstest: starting Cloud Datastore emulator",
        Event.log ("dstest: " ++ w.cmdLine),
        Event.spawn ((if (applyOpts opts defaultOptions).mode = FirestoreMode
          then ["beta", "emulators", "datastore", "start",
                "--data-dir=" ++ w.dataDir,
                "--host-port=localhost:" ++ toString w.port,
                "--no-store-on-disk", "--use-firestore-in-datastore-mode"]
          else ["beta", "emulators", "datastore", "start",
                "--data-dir=" ++ w.dataDir,
                "--host-port=localhost:" ++ toString w.port,
                "--no-store-on-disk"])),
        Event.log "dstest: Cloud Datastore emulator started; waiting for startup",
        Event.log (runningMsg v),
        Event.log (healthyMsg v),
        Event.setenv nm v,
        Event.clientNew], true,
        some (ctx.withTimeout now (applyOpts opts defaultOptions).startTimeout),
        some (ctx.withTimeout now (applyOpts opts defaultOptions).startTimeout)⟩ := by
  unfold emulatorG
  rw [hf, hp, hq, hs, hd, hreq, hresp, hcl, hst]
  dsimp only
  rw [if_pos hm]
  rw [scanRun_received, hann]
  simp [hnm, hv, List.append_assoc]



/-- Helper: an element of the prefix comes before the final element. -/
theorem beforeIn_of_mem_concat {p : List Event} {a b : Event} (h : a ∈ p) :
    beforeIn (p ++ [b]) a b := by
  obtain ⟨s, t, rfl⟩ := List.append_of_mem h
  exact ⟨s, t, [], by simp⟩

/-- Branch equation: graceful-variant run whose output stream ends with no
matching line while the announcement channel still wins the select. -/
theorem emulatorG_noAnnounce (ctx : Ctx) (now : Int) (opts : List Opt) (w : WorldG)
    (hf : w.freeportErr = none)
    (hm : (applyOpts opts defaultOptions).mode = FirestoreMode ∨
      (applyOpts opts defaultOptions).mode = LegacyMode)
    (hp : w.pipeErr = none) (hq : w.quoteErr = none) (hs : w.startErr = none)
    (hd : w.deadlineFirst = false)
    (hann : firstMatch w.outputLines = none) :
    emulatorG ctx now opts w =
      ⟨[Event.log "dstest: starting Cloud Datastore emulator",
        Event.log ("dstest: " ++ w.cmdLine),
        Event.spawn ((if (applyOpts opts defaultOptions).mode = FirestoreMode
          then ["beta", "emulators", "datastore", "start",
                "--data-dir=" ++ w.dataDir,
                "--host-port=localhost:" ++ toString w.port,
                "--no-store-on-disk", "--use-firestore-in-datastore-mode"]
          else ["beta", "emulators", "datastore", "start",
                "--data-dir=" ++ w.dataDir,
                "--host-port=localhost:" ++ toString w.port,
                "--no-store-on-disk"])),
        Event.log "dstest: Cloud Datastore emulator started; waiting for startup",
        Event.fatal noAnnounceMsg], false,
        some (ctx.withTimeout now (applyOpts opts defaultOptions).startTimeout),
        none⟩ := by
  unfold emulatorG
  rw [hf, hp, hq, hs, hd]
  dsimp only
  rw [if_pos hm]
  rw [scanRun_received, hann]
  simp [List.append_assoc]

/-- Branch equation: graceful-variant run whose final health probe has a
non-200 status. -/
theorem emulatorG_badStatus (ctx : Ctx) (now : Int) (opts : List Opt) (w : WorldG)
    (nm v : String)
    (hf : w.freeportErr = none)
    (hm : (applyOpts opts defaultOptions).mode = FirestoreMode ∨
      (applyOpts opts defaultOptions).mode = LegacyMode)
    (hp : w.pipeErr = none) (hq : w.quoteErr = none) (hs : w.startErr = none)
    (hd : w.deadlineFirst = false)
    (hann : firstMatch w.outputLines = some ⟨nm, v⟩)
    (hnm : nm ≠ "") (hv : v ≠ "")
    (hreq : w.healthReqErr = none) (hresp : w.healthRespErr = none)
    (hst : w.healthStatus ≠ 200) :
    emulatorG ctx now opts w =
      ⟨[Event.log "dstest: starting Cloud Datastore emulator",
        Event.log ("dstest: " ++ w.cmdLine),
        Event.spawn ((if (applyOpts opts defaultOptions).mode = FirestoreMode
          then ["beta", "emulators", "datastore", "start",
                "--data-dir=" ++ w.dataDir,
                "--host-port=localhost:" ++ toString w.port,
                "--no-store-on-disk", "--use-firestore-in-datastore-mode"]
          else ["beta", "emulators", "datastore", "start",
                "--data-dir=" ++ w.dataDir,
                "--host-port=localhost:" ++ toString w.port,
                "--no-store-on-disk"])),
        Event.log "dstest: Cloud Datastore emulator started; waiting for startup",
        Event.log (runningMsg v),
        Event.fatal (healthStatusMsgG w.healthStatusText)], false,
        some (ctx.withTimeout now (applyOpts opts defaultOptions).startTimeout),
        some (ctx.withTimeout now (applyOpts opts defaultOptions).startTimeout)⟩ := by
  unfold emulatorG
  rw [hf, hp, hq, hs, hd, hreq, hresp]
  dsimp only
  rw [if_pos hm]
  rw [scanRun_received, hann]
  simp [hnm, hv, hst, List.append_assoc]

/-- Branch equation: graceful-variant run with an invalid mode fails
before anything is spawned. -/
theorem emulatorG_invalidMode (ctx : Ctx) (now : Int) (opts : List Opt) (w : WorldG)
    (hf : w.freeportErr = none)
    (hm1 : (applyOpts opts defaultOptions).mode ≠ FirestoreMode)
    (hm2 : (applyOpts opts defaultOptions).mode ≠ LegacyMode) :
    emulatorG ctx now opts w =
      ⟨[Event.fatal ("invalid mode " ++ toString (applyOpts opts defaultOptions).mode)],
        false, none, none⟩ := by
  unfold emulatorG
  rw [hf]
  dsimp only
  rw [if_neg (by simp [hm1, hm2])]

/-- Branch equation: legacy-variant run with an invalid mode fails before
anything is spawned. -/
theorem emulatorL_invalidMode (ctx : Ctx) (now : Int) (opts : List OptL) (w : WorldL)
    (hm1 : (applyOptsL opts defaultOptionsL).mode ≠ FirestoreMode)
    (hm2 : (applyOptsL opts defaultOptionsL).mode ≠ LegacyMode) :
    emulatorL ctx now opts w =
      ⟨[Event.fatal ("invalid mode " ++ toString (applyOptsL opts defaultOptionsL).mode)],
        false, none, none⟩ := by
  unfold emulatorL
  dsimp only
  rw [if_neg (by simp [hm1, hm2])]

/-- Branch equation: a fully successful legacy-variant run. -/
theorem emulatorL_success (ctx : Ctx) (now : Int) (opts : List OptL) (w : WorldL)
    (nm v : String)
    (hm : (applyOptsL opts defaultOptionsL).mode = FirestoreMode ∨
      (applyOptsL opts defaultOptionsL).mode = LegacyMode)
    (hs : w.startErr = none)
    (hd : w.deadlineFirst = false)
    (hann : firstMatch w.outputLines = some ⟨nm, v⟩)
    (hreq : w.healthReqErr = none) (hresp : w.healthRespErr = none)
    (hst : w.healthStatus = 200) (hcl : w.clientErr = none) :
    emulatorL ctx now opts w =
      ⟨[Event.log "dstest: starting Cloud Datastore emulator",
        Event.spawn ((if (applyOptsL opts defaultOptionsL).mode = FirestoreMode
          then ["beta", "emulators", "datastore", "start",
                "--data-dir=" ++ w.dataDir,
                "--no-store-on-disk", "--use-firestore-in-datastore-mode"]
          else ["beta", "emulators", "datastore", "start",
                "--data-dir=" ++ w.dataDir,
                "--no-store-on-disk"])),
        Event.log "dstest: Cloud Datastore emulator started; waiting for startup",
        Event.log (runningMsg v),
        Event.log (healthyMsg v),
        Event.setenv nm v,
        Event.clientNew], true,
        some (ctx.withTimeout now (applyOptsL opts defaultOptionsL).startTimeout),
        some (ctx.withTimeout now (applyOptsL opts defaultOptionsL).startTimeout)⟩ := by
  unfold emulatorL
  rw [hs, hd, hreq, hresp, hcl, hst]
  dsimp only
  rw [if_pos hm]
  rw [scanRun_received, hann]
  simp [List.append_assoc]

/-- Branch equation: legacy-variant run whose final health probe has a
non-200 status. -/
theorem emulatorL_badStatus (ctx : Ctx) (now : Int) (opts : List OptL) (w : WorldL)
    (nm v : String)
    (hm : (applyOptsL opts defaultOptionsL).mode = FirestoreMode ∨
      (applyOptsL opts defaultOptionsL).mode = LegacyMode)
    (hs : w.startErr = none)
    (hd : w.deadlineFirst = false)
    (hann : firstMatch w.outputLines = some ⟨nm, v⟩)
    (hreq : w.healthReqErr = none) (hresp : w.healthRespErr = none)
    (hst : w.healthStatus ≠ 200) :
    emulatorL ctx now opts w =
      ⟨[Event.log "dstest: starting Cloud Datastore emulator",
        Event.spawn ((if (applyOptsL opts defaultOptionsL).mode = FirestoreMode
          then ["beta", "emulators", "datastore", "start",
                "--data-dir=" ++ w.dataDir,
                "--no-store-on-disk", "--use-firestore-in-datastore-mode"]
          else ["beta", "emulators", "datastore", "start",
                "--data-dir=" ++ w.dataDir,
                "--no-store-on-disk"])),
        Event.log "dstest: Cloud Datastore emulator started; waiting for startup",
        Event.log (runningMsg v),
        Event.fatal (healthStatusMsgL w.healthStatusText)], false,
        some (ctx.withTimeout now (applyOptsL opts defaultOptionsL).startTimeout),
        some (ctx.withTimeout now (applyOptsL opts defaultOptionsL).startTimeout)⟩ := by
  unfold emulatorL
  rw [hs, hd, hreq, hresp]
  dsimp only
  rw [if_pos hm]
  rw [scanRun_received, hann]
  simp [hst, List.append_assoc]



/-- In every graceful-variant run that constructs the client, the final
health probe had succeeded with status 200 and the healthy log precedes
the client construction in the trace. -/
theorem emulatorG_client_after_health (ctx : Ctx) (now : Int) (opts : List Opt) (w : WorldG)
    (hmem : Event.clientNew ∈ (emulatorG ctx now opts w).trace) :
    w.healthStatus = 200 ∧ w.healthRespErr = none ∧ w.healthReqErr = none ∧
      ∃ v, beforeIn (emulatorG ctx now opts w).trace (Event.log (healthyMsg v)) Event.clientNew := by
  rcases hE : emulatorG ctx now opts w with ⟨tr, cl, sc, hc⟩
  rw [hE] at hmem
  unfold emulatorG at hE
  dsimp only at hE
  repeat' split at hE
  all_goals (injection hE with h1 h2 h3 h4; subst h1; try subst h2; try subst h3; try subst h4)
  all_goals simp_all
  all_goals refine ⟨((scanRun w.outputLines true).received.getD ⟨"", ""⟩).value, ?_⟩
  all_goals first
  | (refine ⟨[Event.log "dstest: starting Cloud Datastore emulator",
       Event.log ("dstest: " ++ w.cmdLine),
       Event.spawn ["beta", "emulators", "datastore", "start",
         "--data-dir=" ++ w.dataDir, "--host-port=localhost:" ++ toString w.port,
         "--no-store-on-disk", "--use-firestore-in-datastore-mode"],
       Event.log "dstest: Cloud Datastore emulator started; waiting for startup",
       Event.log (runningMsg ((scanRun w.outputLines true).received.getD ⟨"", ""⟩).value)],
      [Event.setenv ((scanRun w.outputLines true).received.getD ⟨"", ""⟩).name
        ((scanRun w.outputLines true).received.getD ⟨"", ""⟩).value], [], ?_⟩
     simp
     done)
  | (refine ⟨[Event.log "dstest: starting Cloud Datastore emulator",
       Event.log ("dstest: " ++ w.cmdLine),
       Event.spawn ["beta", "emulators", "datastore", "start",
         "--data-dir=" ++ w.dataDir, "--host-port=localhost:" ++ toString w.port,
         "--no-store-on-disk"],
       Event.log "dstest: Cloud Datastore emulator started; waiting for startup",
       Event.log (runningMsg ((scanRun w.outputLines true).received.getD ⟨"", ""⟩).value)],
      [Event.setenv ((scanRun w.outputLines true).received.getD ⟨"", ""⟩).name
        ((scanRun w.outputLines true).received.getD ⟨"", ""⟩).value], [], ?_⟩
     simp
     done)



/-- In every graceful-variant run, the context recorded at the health
request is the `startTimeout`-derived context, and it is the very
context the startup select waited under. -/
theorem emulatorG_shared_ctx (ctx : Ctx) (now : Int) (opts : List Opt) (w : WorldG) (c : Ctx)
    (h : (emulatorG ctx now opts w).healthCtx = some c) :
    c = ctx.withTimeout now (applyOpts opts defaultOptions).startTimeout ∧
    (emulatorG ctx now opts w).selectCtx = some c := by
  rcases hE : emulatorG ctx now opts w with ⟨tr, cl, sc, hc⟩
  rw [hE] at h
  unfold emulatorG at hE
  dsimp only at hE
  repeat' split at hE
  all_goals (injection hE with h1 h2 h3 h4; subst h1; try subst h2; try subst h3; try subst h4)
  all_goals simp_all

/-- Same sharing of the `startTimeout`-derived context in the legacy
variant. -/
theorem emulatorL_shared_ctx (ctx : Ctx) (now : Int) (opts : List OptL) (w : WorldL) (c : Ctx)
    (h : (emulatorL ctx now opts w).healthCtx = some c) :
    c = ctx.withTimeout now (applyOptsL opts defaultOptionsL).startTimeout ∧
    (emulatorL ctx now opts w).selectCtx = some c := by
  rcases hE : emulatorL ctx now opts w with ⟨tr, cl, sc, hc⟩
  rw [hE] at h
  unfold emulatorL at hE
  dsimp only at hE
  repeat' split at hE
  all_goals (injection hE with h1 h2 h3 h4; subst h1; try subst h2; try subst h3; try subst h4)
  all_goals simp_all

/-- In every legacy-variant run that constructs the client, the final
health probe had succeeded with status 200 and the healthy log precedes
the client construction in the trace. -/
theorem emulatorL_client_after_health (ctx : Ctx) (now : Int) (opts : List OptL) (w : WorldL)
    (hmem : Event.clientNew ∈ (emulatorL ctx now opts w).trace) :
    w.healthStatus = 200 ∧ w.healthRespErr = none ∧ w.healthReqErr = none ∧
      ∃ v, beforeIn (emulatorL ctx now opts w).trace (Event.log (healthyMsg v)) Event.clientNew := by
  rcases hE : emulatorL ctx now opts w with ⟨tr, cl, sc, hc⟩
  rw [hE] at hmem
  unfold emulatorL at hE
  dsimp only at hE
  repeat' split at hE
  all_goals (injection hE with h1 h2 h3 h4; subst h1; try subst h2; try subst h3; try subst h4)
  all_goals simp_all
  all_goals refine ⟨((scanRun w.outputLines true).received.getD ⟨"", ""⟩).value, ?_⟩
  all_goals first
  | (refine ⟨[Event.log "dstest: starting Cloud Datastore emulator",
       Event.spawn ["beta", "emulators", "datastore", "start",
         "--data-dir=" ++ w.dataDir,
         "--no-store-on-disk", "--use-firestore-in-datastore-mode"],
       Event.log "dstest: Cloud Datastore emulator started; waiting for startup",
       Event.log (runningMsg ((scanRun w.outputLines true).received.getD ⟨"", ""⟩).value)],
      [Event.setenv ((scanRun w.outputLines true).received.getD ⟨"", ""⟩).name
        ((scanRun w.outputLines true).received.getD ⟨"", ""⟩).value], [], ?_⟩
     simp
     done)
  | (refine ⟨[Event.log "dstest: starting Cloud Datastore emulator",
       Event.spawn ["beta", "emulators", "datastore", "start",
         "--data-dir=" ++ w.dataDir,
         "--no-store-on-disk"],
       Event.log "dstest: Cloud Datastore emulator started; waiting for startup",
       Event.log (runningMsg ((scanRun w.outputLines true).received.getD ⟨"", ""⟩).value)],
      [Event.setenv ((scanRun w.outputLines true).received.getD ⟨"", ""⟩).name
        ((scanRun w.outputLines true).received.getD ⟨"", ""⟩).value], [], ?_⟩
     simp
     done)



/-- Stripping a literal pattern succeeds exactly on strings extending it. -/
theorem stripPfx_eq_some : ∀ (p s r : List Char), stripPfx p s = some r ↔ s = p ++ r
  | [], s, r => by simp [stripPfx]
  | c :: ps, [], r => by simp [stripPfx]
  | c :: ps, d :: s, r => by
    simp only [stripPfx, List.cons_append]
    by_cases h : d = c
    · subst h
      simp [stripPfx_eq_some ps s r]
    · simp [h]

/-- takeSpaces splits its input into a maximal space block and a
remainder that does not begin with a space. -/
theorem takeSpaces_spec : ∀ s : List Char,
    s = List.replicate (takeSpaces s).1 ' ' ++ (takeSpaces s).2 ∧
      (takeSpaces s).2.head? ≠ some ' '
  | [] => by simp [takeSpaces]
  | c :: cs => by
    by_cases h : c = ' '
    · subst h
      obtain ⟨ih1, ih2⟩ := takeSpaces_spec cs
      simp only [takeSpaces, if_pos rfl]
      refine ⟨?_, ih2⟩
      conv_lhs => rw [ih1]
      simp [List.replicate_succ]
    · simp [takeSpaces, h]

/-- takeSpaces recovers an explicitly built space block. -/
theorem takeSpaces_replicate : ∀ (k : Nat) (r : List Char), r.head? ≠ some ' ' →
    takeSpaces (List.replicate k ' ' ++ r) = (k, r)
  | 0, r, h => by
    cases r with
    | nil => simp [takeSpaces]
    | cons c cs =>
      simp only [List.replicate, List.nil_append, takeSpaces]
      rw [if_neg]
      intro hc
      exact h (by simp [hc])
  | k + 1, r, h => by
    have ih := takeSpaces_replicate k r h
    simp [List.replicate_succ, takeSpaces, ih]



/-- C7: a line is accepted as an endpoint announcement exactly when it is
the datastore tag, one or more spaces, the literal export of
DATASTORE_EMULATOR_HOST, and a non-empty remainder; the extracted pair
is the fixed name with that remainder, so lines exporting any other
variable are ignored. -/
theorem c7_announcement_shape (line : String) (nm v : String)
    (hnl : line.data.any (fun c => c = '\n') = false) :
    envRegexpMatch line = some ⟨nm, v⟩ ↔
      (nm = "DATASTORE_EMULATOR_HOST" ∧ v.data ≠ [] ∧
        ∃ k, 1 ≤ k ∧
          line.data = "[datastore]".data ++
            (List.replicate k ' ' ++ ("export DATASTORE_EMULATOR_HOST=".data ++ v.data))) := by
  obtain ⟨vd⟩ := v
  constructor
  · intro h
    unfold envRegexpMatch at h
    cases h1 : stripPfx "[datastore]".data line.data with
    | none => rw [h1] at h; exact absurd h (by simp)
    | some r1 =>
      rw [h1] at h
      dsimp only at h
      by_cases hsp : (takeSpaces r1).1 = 0
      · rw [if_pos hsp] at h; exact absurd h (by simp)
      · rw [if_neg hsp] at h
        cases h2 : stripPfx "export DATASTORE_EMULATOR_HOST=".data (takeSpaces r1).2 with
        | none => rw [h2] at h; exact absurd h (by simp)
        | some rest =>
          rw [h2] at h
          dsimp only at h
          by_cases hre : rest = []
          · rw [if_pos hre] at h; exact absurd h (by simp)
          · rw [if_neg hre] at h
            by_cases hrn : rest.any (fun c => c = '\n') = true
            · rw [if_pos hrn] at h; exact absurd h (by simp)
            · rw [if_neg hrn] at h
              injection h with h
              rw [EnvVar.mk.injEq] at h
              obtain ⟨hn, hv⟩ := h
              have hv2 : rest = vd := congrArg String.data hv
              subst hv2
              refine ⟨hn.symm, hre, (takeSpaces r1).1, by omega, ?_⟩
              have e1 : line.data = "[datastore]".data ++ r1 := (stripPfx_eq_some _ _ _).mp h1
              have e2 := (takeSpaces_spec r1).1
              have e3 : (takeSpaces r1).2 = "export DATASTORE_EMULATOR_HOST=".data ++ rest :=
                (stripPfx_eq_some _ _ _).mp h2
              rw [e1]
              conv_lhs => rw [e2, e3]
  · rintro ⟨hn, hvne, k, hk, hdata⟩
    subst hn
    unfold envRegexpMatch
    rw [(stripPfx_eq_some _ _ _).mpr hdata]
    dsimp only
    have hc : ("export DATASTORE_EMULATOR_HOST=".data ++ vd).head? = some 'e' := by
      have he : "export DATASTORE_EMULATOR_HOST=".data =
          'e' :: "xport DATASTORE_EMULATOR_HOST=".data := by decide
      rw [he, List.cons_append]
      rfl
    have hhead : ("export DATASTORE_EMULATOR_HOST=".data ++ vd).head? ≠ some ' ' := by
      rw [hc]; decide
    rw [takeSpaces_replicate k _ hhead]
    dsimp only
    rw [if_neg (by omega)]
    rw [(stripPfx_eq_some "export DATASTORE_EMULATOR_HOST=".data
      ("export DATASTORE_EMULATOR_HOST=".data ++ vd) vd).mpr rfl]
    dsimp only
    rw [hdata] at hnl
    simp only [List.any_append, Bool.or_eq_false_iff] at hnl
    rw [if_neg (by simpa using hvne)]
    rw [if_neg (by simp [hnl.2.2.2])]



/-- Data of an appended string is the appended data. -/
theorem string_data_append (s t : String) : (s ++ t).data = s.data ++ t.data := by
  cases s; cases t; rfl

/-- Length of an appended string. -/
theorem string_length_append (s t : String) : (s ++ t).length = s.length + t.length := by
  cases s with
  | mk d1 => cases t with
    | mk d2 => exact List.length_append d1 d2

/-- A string shorter than `b` never equals `b` extended by anything. -/
theorem ne_extension {a b : String} (h : a.length < b.length) (e : String) : a ≠ b ++ e := by
  intro he
  have hl : a.length = (b ++ e).length := by rw [he]
  rw [string_length_append] at hl
  omega

/-- Two strings with different fixed prefixes stay different under any
suffixes. -/
theorem appended_ne (a b : String) (i : Nat) (hia : i < a.data.length) (hib : i < b.data.length)
    (hne : a.data.get? i ≠ b.data.get? i) : ∀ s t : String, a ++ s ≠ b ++ t := by
  intro s t h
  apply hne
  have hd : a.data ++ s.data = b.data ++ t.data := by
    rw [← string_data_append, ← string_data_append, h]
  calc a.data.get? i = (a.data ++ s.data).get? i := (List.get?_append hia).symm
    _ = (b.data ++ t.data).get? i := by rw [hd]
    _ = b.data.get? i := List.get?_append hib

/-- The health-status fatal messages differ from every startup-timeout
message, in both variants. -/
theorem healthStatus_ne_timeout (st e : String) :
    healthStatusMsgG st ≠ startTimeoutMsg e ∧ healthStatusMsgL st ≠ startTimeoutMsg e :=
  ⟨appended_ne "dstest: health check failed with HTTP status "
      "dstest: Cloud Datastore emulator didn’t start up: " 8 (by decide) (by decide)
      (by decide) st e,
   appended_ne "dstest: health checked failed with HTTP status "
      "dstest: Cloud Datastore emulator didn’t start up: " 8 (by decide) (by decide)
      (by decide) st e⟩

/-- The bare no-announcement fatal message differs from every
startup-timeout message. -/
theorem noAnnounce_ne_timeout (e : String) : noAnnounceMsg ≠ startTimeoutMsg e :=
  ne_extension (by decide) e

/-- C1 (counterexample): a kill failure during the legacy variant's
cleanup is reported via the test's failure mechanism (`t.Errorf`), so a
teardown error does flip the test's outcome to failed, refuting the
claim that no teardown error is ever escalated to a test failure. -/
theorem c1_counterexample :
    failsTest (killCleanup (some "operation not permitted") none) = true ∧
    Event.err "dstest: killing Cloud Datastore emulator failed: operation not permitted" ∈
      killCleanup (some "operation not permitted") none := by
  exact ⟨rfl, by decide⟩

/-- C1 (amended): teardown failures never abort the test fatally in
either variant, and the graceful variant's shutdown and client-close
cleanups record failures only as log diagnostics that leave the test's
outcome untouched; the legacy variant's kill, pipe-close and
client-close failures, however, are reported via `Errorf`, which marks
the test failed without aborting it. -/
theorem c1_teardown_nonfatal (e1 e2 e3 e4 r1 r2 : Option String) (status : Nat) (st : String) :
    (killCleanup e1 e2).all (fun ev => !ev.isFatal) = true ∧
    (closeCleanupL e3).all (fun ev => !ev.isFatal) = true ∧
    failsTest (shutdownCleanup r1 r2 status st) = false ∧
    failsTest (closeCleanupG e4) = false := by
  refine ⟨?_, ?_, ?_, ?_⟩
  · cases e1 <;> cases e2 <;> simp [killCleanup, Event.isFatal]
  · cases e3 <;> simp [closeCleanupL, Event.isFatal]
  · cases r1 <;> cases r2 <;> by_cases hstatus : status = 200 <;>
      simp [shutdownCleanup, failsTest, Event.isErr, Event.isFatal, hstatus]
  · cases e4 <;> simp [closeCleanupG, failsTest, Event.isErr, Event.isFatal]

/-- C3 (counterexample): when the shutdown POST draws a 503, the graceful
cleanup returns immediately after logging — it neither kills the
supervised process nor blocks on the process-wait/output-scanner join,
refuting the claim that teardown falls back to forceful termination and
in every case waits for both. -/
theorem c3_counterexample :
    shutdownCleanup none none 503 "503 Service Unavailable" =
      [Event.log "dstest: asking Cloud Datastore emulator to shut down",
       Event.log "dstest: stopping Cloud Datastore emulator failed: 503 Service Unavailable"] ∧
    Event.wgWait ∉ shutdownCleanup none none 503 "503 Service Unavailable" ∧
    Event.kill ∉ shutdownCleanup none none 503 "503 Service Unavailable" := by
  refine ⟨rfl, by decide, by decide⟩

/-- C3 (amended): the graceful shutdown cleanup always completes and
never fails the test, it never kills the process itself (forceful
termination is left to cancellation of the caller's context), and it
blocks on the process-wait and output-scanner join exactly when the
shutdown POST succeeded with status 200 — on every failure path it
returns immediately after logging. -/
theorem c3_shutdown_wait_iff (reqErr respErr : Option String) (status : Nat) (st : String) :
    (Event.wgWait ∈ shutdownCleanup reqErr respErr status st ↔
      reqErr = none ∧ respErr = none ∧ status = 200) ∧
    Event.kill ∉ shutdownCleanup reqErr respErr status st ∧
    failsTest (shutdownCleanup reqErr respErr status st) = false := by
  cases reqErr <;> cases respErr <;> by_cases hstatus : status = 200 <;>
    simp_all [shutdownCleanup, failsTest, Event.isErr, Event.isFatal]

/-- C4 (counterexample): with no receiver listening, a stream whose
pattern matches twice blocks the scanner forever on the second send to
the single-slot channel, and the channel is never closed — refuting the
claim that the scanner always finishes draining and closes the channel
even when additional matching lines occur after the first. -/
theorem c4_counterexample :
    (scanRun [annLine, annLine2] false).blocked = true ∧
    (scanRun [annLine, annLine2] false).closed = false := by
  exact ⟨rfl, rfl⟩

/-- C4 (amended): the single-slot buffer protects the scanner only up to
capacity: the scanner avoids blocking (and then closes the channel)
exactly when the number of matching lines is at most one with no
receiver listening, or at most two when the coordinator takes one
announcement; beyond that the scanning task blocks forever. -/
theorem c4_scanner_single_slot (lines : List String) (recvW : Bool) :
    ((scanRun lines recvW).blocked = false ↔
      countMatches lines ≤ if recvW then 2 else 1) ∧
    (scanRun lines recvW).closed = !(scanRun lines recvW).blocked := by
  refine ⟨?_, scanLines_closed_eq lines recvW none none⟩
  have h := scanLines_blocked_iff lines recvW none none
  cases recvW <;> simpa using h



/-- C2 (counterexample): in the legacy variant, a run whose output stream
closes with zero matching lines before the startup deadline does not
fail with any no-endpoint-announced diagnostic: it proceeds past
startup with an empty endpoint and only dies in the health check,
refuting the claim for that variant. -/
theorem c2_counterexample :
    (emulatorL ⟨none⟩ 0 [] wC2L).client = false ∧
    Event.fatal noAnnounceMsg ∉ (emulatorL ⟨none⟩ 0 [] wC2L).trace ∧
    Event.log (runningMsg "") ∈ (emulatorL ⟨none⟩ 0 [] wC2L).trace ∧
    Event.fatal (healthErrMsg "no Host in request URL") ∈ (emulatorL ⟨none⟩ 0 [] wC2L).trace := by
  refine ⟨rfl, by decide, by decide, by decide⟩

/-- C2 (amended): in the graceful variant, a run whose output stream ends
with zero matching lines while the announcement channel still wins the
select fails fatally with the bare didn’t-start-up diagnostic — a
message distinct from every startup-timeout message, which carries the
deadline's error text — and no client is returned; the legacy variant
lacks this check and reaches the health phase instead. -/
theorem c2_no_announcement_graceful (ctx : Ctx) (now : Int) (opts : List Opt) (w : WorldG)
    (hf : w.freeportErr = none)
    (hm : (applyOpts opts defaultOptions).mode = FirestoreMode ∨
      (applyOpts opts defaultOptions).mode = LegacyMode)
    (hp : w.pipeErr = none) (hq : w.quoteErr = none) (hs : w.startErr = none)
    (hd : w.deadlineFirst = false)
    (hann : firstMatch w.outputLines = none) :
    (emulatorG ctx now opts w).client = false ∧
    (emulatorG ctx now opts w).trace =
      [Event.log "dstest: starting Cloud Datastore emulator",
       Event.log ("dstest: " ++ w.cmdLine),
       Event.spawn ((if (applyOpts opts defaultOptions).mode = FirestoreMode
          then ["beta", "emulators", "datastore", "start",
                "--data-dir=" ++ w.dataDir,
                "--host-port=localhost:" ++ toString w.port,
                "--no-store-on-disk", "--use-firestore-in-datastore-mode"]
          else ["beta", "emulators", "datastore", "start",
                "--data-dir=" ++ w.dataDir,
                "--host-port=localhost:" ++ toString w.port,
                "--no-store-on-disk"])),
       Event.log "dstest: Cloud Datastore emulator started; waiting for startup",
       Event.fatal noAnnounceMsg] ∧
    (∀ e, noAnnounceMsg ≠ startTimeoutMsg e) := by
  have h := emulatorG_noAnnounce ctx now opts w hf hm hp hq hs hd hann
  refine ⟨?_, ?_, noAnnounce_ne_timeout⟩
  · rw [h]
  · rw [h]

/-- C5: the startup wait honors exactly the first matching line: the
received announcement is the first match, the health check, the
environment injection and the client construction all use its value,
and replacing the output stream by any stream with the same first match
— whatever later matching lines it contains — yields the identical run
result. -/
theorem c5_first_match_honored (ctx : Ctx) (now : Int) (opts : List Opt) (w : WorldG)
    (lines2 : List String) (nm v : String)
    (hf : w.freeportErr = none)
    (hm : (applyOpts opts defaultOptions).mode = FirestoreMode ∨
      (applyOpts opts defaultOptions).mode = LegacyMode)
    (hp : w.pipeErr = none) (hq : w.quoteErr = none) (hs : w.startErr = none)
    (hd : w.deadlineFirst = false)
    (hann : firstMatch w.outputLines = some ⟨nm, v⟩)
    (hann2 : firstMatch lines2 = some ⟨nm, v⟩)
    (hreq : w.healthReqErr = none) (hresp : w.healthRespErr = none)
    (hst : w.healthStatus = 200) (hcl : w.clientErr = none) :
    (scanRun w.outputLines true).received = some ⟨nm, v⟩ ∧
    Event.log (runningMsg v) ∈ (emulatorG ctx now opts w).trace ∧
    Event.setenv nm v ∈ (emulatorG ctx now opts w).trace ∧
    Event.clientNew ∈ (emulatorG ctx now opts w).trace ∧
    emulatorG ctx now opts { w with outputLines := lines2 } = emulatorG ctx now opts w := by
  have hnm0 : nm = "DATASTORE_EMULATOR_HOST" := (firstMatch_fields hann).1
  have hv0 : v ≠ "" := (firstMatch_fields hann).2
  have hnm : nm ≠ "" := by rw [hnm0]; decide
  have hA := emulatorG_success ctx now opts w nm v hf hm hp hq hs hd hann hnm hv0
    hreq hresp hst hcl
  have hB := emulatorG_success ctx now opts { w with outputLines := lines2 } nm v hf hm hp hq
    hs hd hann2 hnm hv0 hreq hresp hst hcl
  refine ⟨?_, ?_, ?_, ?_, ?_⟩
  · rw [scanRun_received, hann]
  · rw [hA]; simp
  · rw [hA]; simp
  · rw [hA]; simp
  · rw [hA, hB]

/-- C6: a non-200 final health response makes both variants fail fatally
with a status diagnostic distinct from every startup-timeout message
and return no client, and in both variants a client is only ever
constructed after a 200 health response was observed, the healthy log
preceding the construction in the trace. -/
theorem c6_health_gate (ctx : Ctx) (now : Int) (opts : List Opt) (optsL : List OptL)
    (w : WorldG) (wL : WorldL) (nm v nmL vL : String)
    (hf : w.freeportErr = none)
    (hm : (applyOpts opts defaultOptions).mode = FirestoreMode ∨
      (applyOpts opts defaultOptions).mode = LegacyMode)
    (hp : w.pipeErr = none) (hq : w.quoteErr = none) (hs : w.startErr = none)
    (hd : w.deadlineFirst = false)
    (hann : firstMatch w.outputLines = some ⟨nm, v⟩)
    (hreq : w.healthReqErr = none) (hresp : w.healthRespErr = none)
    (hst : w.healthStatus ≠ 200)
    (hmL : (applyOptsL optsL defaultOptionsL).mode = FirestoreMode ∨
      (applyOptsL optsL defaultOptionsL).mode = LegacyMode)
    (hsL : wL.startErr = none)
    (hdL : wL.deadlineFirst = false)
    (hannL : firstMatch wL.outputLines = some ⟨nmL, vL⟩)
    (hreqL : wL.healthReqErr = none) (hrespL : wL.healthRespErr = none)
    (hstL : wL.healthStatus ≠ 200) :
    ((emulatorG ctx now opts w).client = false ∧
      Event.fatal (healthStatusMsgG w.healthStatusText) ∈ (emulatorG ctx now opts w).trace) ∧
    ((emulatorL ctx now optsL wL).client = false ∧
      Event.fatal (healthStatusMsgL wL.healthStatusText) ∈ (emulatorL ctx now optsL wL).trace) ∧
    (∀ st e, healthStatusMsgG st ≠ startTimeoutMsg e ∧ healthStatusMsgL st ≠ startTimeoutMsg e) ∧
    (∀ w2 : WorldG, Event.clientNew ∈ (emulatorG ctx now opts w2).trace →
      w2.healthStatus = 200 ∧
      ∃ u, beforeIn (emulatorG ctx now opts w2).trace (Event.log (healthyMsg u)) Event.clientNew) ∧
    (∀ w2 : WorldL, Event.clientNew ∈ (emulatorL ctx now optsL w2).trace →
      w2.healthStatus = 200 ∧
      ∃ u, beforeIn (emulatorL ctx now optsL w2).trace (Event.log (healthyMsg u)) Event.clientNew) := by
  have hnm0 : nm = "DATASTORE_EMULATOR_HOST" := (firstMatch_fields hann).1
  have hv0 : v ≠ "" := (firstMatch_fields hann).2
  have hnm : nm ≠ "" := by rw [hnm0]; decide
  have hG := emulatorG_badStatus ctx now opts w nm v hf hm hp hq hs hd hann hnm hv0
    hreq hresp hst
  have hL := emulatorL_badStatus ctx now optsL wL nmL vL hmL hsL hdL hannL hreqL hrespL hstL
  refine ⟨⟨by rw [hG], by rw [hG]; simp⟩, ⟨by rw [hL], by rw [hL]; simp⟩,
    healthStatus_ne_timeout, ?_, ?_⟩
  · intro w2 hmem
    have h := emulatorG_client_after_health ctx now opts w2 hmem
    exact ⟨h.1, h.2.2.2⟩
  · intro w2 hmem
    have h := emulatorL_client_after_health ctx now optsL w2 hmem
    exact ⟨h.1, h.2.2.2⟩



/-- C8: whenever a run reaches the health request, the context it runs
under is exactly the startTimeout-derived deadline applied to the
caller's context, and it is the very context the startup select waited
under — the health check has no independent budget (both variants). -/
theorem c8_shared_deadline (ctx : Ctx) (now : Int) (opts : List Opt) (optsL : List OptL)
    (w : WorldG) (wL : WorldL) (c cL : Ctx)
    (h : (emulatorG ctx now opts w).healthCtx = some c)
    (hL : (emulatorL ctx now optsL wL).healthCtx = some cL) :
    c = ctx.withTimeout now (applyOpts opts defaultOptions).startTimeout ∧
    (emulatorG ctx now opts w).selectCtx = some c ∧
    cL = ctx.withTimeout now (applyOptsL optsL defaultOptionsL).startTimeout ∧
    (emulatorL ctx now optsL wL).selectCtx = some cL := by
  obtain ⟨h1, h2⟩ := emulatorG_shared_ctx ctx now opts w c h
  obtain ⟨h3, h4⟩ := emulatorL_shared_ctx ctx now optsL wL cL hL
  exact ⟨h1, h2, h3, h4⟩

/-- Field-wise characterization of option application: each field of the
result is the last supplied value of its option kind, defaulting to the
initial configuration's field. -/
theorem applyOpts_fields : ∀ (opts : List Opt) (o : Options),
    (applyOpts opts o).mode = lastD (opts.filterMap modeOf) o.mode ∧
    (applyOpts opts o).startTimeout = lastD (opts.filterMap startOf) o.startTimeout ∧
    (applyOpts opts o).stopTimeout = lastD (opts.filterMap stopOf) o.stopTimeout
  | [], o => ⟨rfl, rfl, rfl⟩
  | op :: t, o => by
    have ih := applyOpts_fields t (op.apply o)
    cases op <;>
      simpa [applyOpts, List.foldl_cons, List.filterMap_cons, modeOf, startOf, stopOf,
        Opt.apply, lastD] using ih

/-- C9: with no options both variants use Firestore mode and 20-second
start (and, in the graceful variant, stop) timeouts, and when several
options of one kind are supplied the last one wins: every field of the
effective configuration is the last supplied value of its kind. -/
theorem c9_option_defaults_last_wins (opts : List Opt) :
    applyOpts [] defaultOptions = ⟨FirestoreMode, 20 * second, 20 * second⟩ ∧
    applyOptsL [] defaultOptionsL = ⟨FirestoreMode, 20 * second⟩ ∧
    (applyOpts opts defaultOptions).mode = lastD (opts.filterMap modeOf) FirestoreMode ∧
    (applyOpts opts defaultOptions).startTimeout = lastD (opts.filterMap startOf) (20 * second) ∧
    (applyOpts opts defaultOptions).stopTimeout = lastD (opts.filterMap stopOf) (20 * second) := by
  obtain ⟨h1, h2, h3⟩ := applyOpts_fields opts defaultOptions
  exact ⟨rfl, rfl, h1, h2, h3⟩

/-- C10: any effective mode other than FirestoreMode and LegacyMode makes
both variants fail fatally with the invalid-mode diagnostic as the only
recorded effect, and in particular no process is ever spawned. -/
theorem c10_invalid_mode (ctx : Ctx) (now : Int) (opts : List Opt) (optsL : List OptL)
    (w : WorldG) (wL : WorldL)
    (hf : w.freeportErr = none)
    (hm1 : (applyOpts opts defaultOptions).mode ≠ FirestoreMode)
    (hm2 : (applyOpts opts defaultOptions).mode ≠ LegacyMode)
    (hm1L : (applyOptsL optsL defaultOptionsL).mode ≠ FirestoreMode)
    (hm2L : (applyOptsL optsL defaultOptionsL).mode ≠ LegacyMode) :
    emulatorG ctx now opts w =
      ⟨[Event.fatal ("invalid mode " ++ toString (applyOpts opts defaultOptions).mode)],
        false, none, none⟩ ∧
    (∀ a, Event.spawn a ∉ (emulatorG ctx now opts w).trace) ∧
    emulatorL ctx now optsL wL =
      ⟨[Event.fatal ("invalid mode " ++ toString (applyOptsL optsL defaultOptionsL).mode)],
        false, none, none⟩ ∧
    (∀ a, Event.spawn a ∉ (emulatorL ctx now optsL wL).trace) := by
  have hG := emulatorG_invalidMode ctx now opts w hf hm1 hm2
  have hL := emulatorL_invalidMode ctx now optsL wL hm1L hm2L
  refine ⟨hG, ?_, hL, ?_⟩
  · intro a; rw [hG]; simp
  · intro a; rw [hL]; simp

/-- C2 (witness): the graceful no-announcement failure at a concrete
world with an empty output stream. -/
theorem c2_witness :
    (emulatorG ⟨none⟩ 0 [] wEmptyG).client = false ∧
    noAnnounceMsg ≠ startTimeoutMsg "context deadline exceeded" := by
  have h := c2_no_announcement_graceful ⟨none⟩ 0 [] wEmptyG rfl (Or.inl rfl) rfl rfl rfl rfl
    (by decide)
  exact ⟨h.1, h.2.2 "context deadline exceeded"⟩

/-- C5 (witness): a concrete stream with one announcement behaves like
its extension by a second, different announcement. -/
theorem c5_witness :
    (scanRun [annLine] true).received =
      some ⟨"DATASTORE_EMULATOR_HOST", "localhost:8081"⟩ ∧
    emulatorG ⟨none⟩ 0 [] { wOkG with outputLines := [annLine, annLine2] } =
      emulatorG ⟨none⟩ 0 [] wOkG := by
  have h := c5_first_match_honored ⟨none⟩ 0 [] wOkG [annLine, annLine2]
    "DATASTORE_EMULATOR_HOST" "localhost:8081" rfl (Or.inl rfl) rfl rfl rfl rfl
    (by decide) (by decide) rfl rfl rfl rfl
  exact ⟨h.1, h.2.2.2.2⟩

/-- C6 (witness): concrete 503 runs of both variants plus the concrete
message distinction. -/
theorem c6_witness :
    (emulatorG ⟨none⟩ 0 [] wBadG).client = false ∧
    (emulatorL ⟨none⟩ 0 [] wBadL).client = false ∧
    healthStatusMsgG "503 Service Unavailable" ≠ startTimeoutMsg "context deadline exceeded" := by
  have h := c6_health_gate ⟨none⟩ 0 [] [] wBadG wBadL
    "DATASTORE_EMULATOR_HOST" "localhost:8081" "DATASTORE_EMULATOR_HOST" "localhost:8081"
    rfl (Or.inl rfl) rfl rfl rfl rfl (by decide) rfl rfl (by decide)
    (Or.inl rfl) rfl rfl (by decide) rfl rfl (by decide)
  exact ⟨h.1.1, h.2.1.1, (h.2.2.1 "503 Service Unavailable" "context deadline exceeded").1⟩

/-- C7 (witness): the shape equivalence at a concrete announcement line. -/
theorem c7_witness :
    envRegexpMatch annLine = some ⟨"DATASTORE_EMULATOR_HOST", "localhost:8081"⟩ ↔
      ("DATASTORE_EMULATOR_HOST" = "DATASTORE_EMULATOR_HOST" ∧
        ("localhost:8081" : String).data ≠ [] ∧
        ∃ k, 1 ≤ k ∧
          annLine.data = "[datastore]".data ++
            (List.replicate k ' ' ++
              ("export DATASTORE_EMULATOR_HOST=".data ++ ("localhost:8081" : String).data))) :=
  c7_announcement_shape annLine "DATASTORE_EMULATOR_HOST" "localhost:8081" (by decide)

/-- C8 (witness): concrete successful runs of both variants share the
20-second deadline context. -/
theorem c8_witness :
    (⟨some 20000000000⟩ : Ctx) =
      Ctx.withTimeout ⟨none⟩ 0 (applyOpts [] defaultOptions).startTimeout ∧
    (emulatorG ⟨none⟩ 0 [] wOkG).selectCtx = some ⟨some 20000000000⟩ ∧
    (⟨some 20000000000⟩ : Ctx) =
      Ctx.withTimeout ⟨none⟩ 0 (applyOptsL [] defaultOptionsL).startTimeout ∧
    (emulatorL ⟨none⟩ 0 [] wOkL).selectCtx = some ⟨some 20000000000⟩ :=
  c8_shared_deadline ⟨none⟩ 0 [] [] wOkG wOkL ⟨some 20000000000⟩ ⟨some 20000000000⟩
    (by decide) (by decide)

/-- C10 (witness): mode 2 at concrete worlds. -/
theorem c10_witness :
    emulatorG ⟨none⟩ 0 [Opt.mode 2] wOkG =
      ⟨[Event.fatal ("invalid mode " ++ toString (applyOpts [Opt.mode 2] defaultOptions).mode)],
        false, none, none⟩ ∧
    emulatorL ⟨none⟩ 0 [OptL.mode 2] wOkL =
      ⟨[Event.fatal ("invalid mode " ++
          toString (applyOptsL [OptL.mode 2] defaultOptionsL).mode)],
        false, none, none⟩ := by
  have h := c10_invalid_mode ⟨none⟩ 0 [Opt.mode 2] [OptL.mode 2] wOkG wOkL rfl
    (by decide) (by decide) (by decide) (by decide)
  exact ⟨h.1, h.2.2.1⟩

end Dstest
